import Mathlib

/-!
Verification of the Botmaker productivity dashboard data pipeline
(app.py): a shallow embedding of the parsing, validation, cleaning,
left-join, filtering and aggregation logic, together with theorems
settling the specification claims about that pipeline.
-/

namespace Botmaker

/-- A raw cell of a numeric column as parsed from the TSV feed: the
literal "-" sentinel, a numeric value, an empty cell (read as NaN), or
a non-numeric token that fails numeric coercion. -/
inductive RawCell where
  | dash : RawCell
  | num : ℚ → RawCell
  | blank : RawCell
  | invalid : RawCell
deriving DecidableEq

/-- Pandas pipeline pd.to_numeric(col.replace("-", NA), errors="coerce").fillna(0)
applied to one cell: the "-" sentinel, blanks and coercion failures all
become 0, numeric values pass through unchanged (app.py line 113). -/
def cleanCount : RawCell → ℚ
  | RawCell.num q => q
  | _ => 0

/-- Pandas pipeline pd.to_numeric(col.replace("-", NA), errors="coerce")
with no fillna, applied to the mean-response-time cell: the "-" sentinel,
blanks and coercion failures stay missing (app.py lines 117-121). -/
def cleanResponse : RawCell → Option ℚ
  | RawCell.num q => some q
  | _ => none

/-- A raw timestamp cell: either a parseable timestamp, abstracted to a
point on an integer time axis, or a blank/unparseable cell. -/
inductive RawTimestamp where
  | ts : ℤ → RawTimestamp
  | bad : RawTimestamp
deriving DecidableEq

/-- Pandas pd.to_datetime(col, errors="coerce"): unparseable cells become
NaT, i.e. missing (app.py line 130). -/
def parseTimestamp : RawTimestamp → Option ℤ
  | RawTimestamp.ts t => some t
  | RawTimestamp.bad => none

/-- Calendar date of a timestamp (the .dt.date projection), modelled as
the day number on the integer time axis. -/
def dateOf (t : ℤ) : ℤ := t / 86400

/-- One raw row of the operators-sessions feed, with the columns the
pipeline touches. -/
structure RawSessionRow where
  idSesion : String
  nombreAgente : String
  inicioSesion : RawTimestamp
  cola : Option String
  conversacionesCerradas : RawCell
  conversacionConAgente : RawCell
  esperaAgente : RawCell
  cantidadRespuestas : RawCell
  transferenciasRealizadas : RawCell
  abandonadaPorUsuario : RawCell
  tiempoMedioRespuesta : RawCell
deriving DecidableEq

/-- One cleaned session row: numeric columns coerced with 0 for missing,
mean response time kept optional, start timestamp parsed, and the derived
Fecha column (app.py lines 104-132). -/
structure SessionRow where
  idSesion : String
  nombreAgente : String
  inicioSesion : ℤ
  fecha : ℤ
  cola : Option String
  conversacionesCerradas : ℚ
  conversacionConAgente : ℚ
  esperaAgente : ℚ
  cantidadRespuestas : ℚ
  transferenciasRealizadas : ℚ
  abandonadaPorUsuario : ℚ
  tiempoMedioRespuesta : Option ℚ
deriving DecidableEq

/-- Cleaning of one session row whose start timestamp parsed to t. -/
def cleanSessionRow (r : RawSessionRow) (t : ℤ) : SessionRow :=
  ⟨r.idSesion, r.nombreAgente, t, dateOf t, r.cola,
   cleanCount r.conversacionesCerradas, cleanCount r.conversacionConAgente,
   cleanCount r.esperaAgente, cleanCount r.cantidadRespuestas,
   cleanCount r.transferenciasRealizadas, cleanCount r.abandonadaPorUsuario,
   cleanResponse r.tiempoMedioRespuesta⟩

/-- Cleaning of the sessions table: numeric coercion on every row and
dropna on the parsed start timestamp, so rows whose start timestamp fails
to parse are dropped (app.py lines 111-132). -/
def cleanSessions (rs : List RawSessionRow) : List SessionRow :=
  rs.filterMap (fun r => (parseTimestamp r.inicioSesion).map (cleanSessionRow r))

/-- One raw row of the users feed, with the columns the pipeline touches. -/
structure RawUserRow where
  idSesion : String
  tipificacion : Option String
  mensajesAgente : RawCell
  mensajesUsuario : RawCell
  mensajesBot : RawCell
deriving DecidableEq

/-- One cleaned user-conversation row (app.py lines 124-127). -/
structure UserRow where
  idSesion : String
  tipificacion : Option String
  mensajesAgente : ℚ
  mensajesUsuario : ℚ
  mensajesBot : ℚ
deriving DecidableEq

/-- Cleaning of one users row: the three message-count columns follow the
same "-" to missing to 0 rule as the session counts. -/
def cleanUserRow (u : RawUserRow) : UserRow :=
  ⟨u.idSesion, u.tipificacion, cleanCount u.mensajesAgente,
   cleanCount u.mensajesUsuario, cleanCount u.mensajesBot⟩

/-- Cleaning of the users table (app.py lines 124-127). -/
def cleanUsers (us : List RawUserRow) : List UserRow := us.map cleanUserRow

/-- One row of the merged table produced by pd.merge(..., how="left") on
Id Sesión followed by the Cola fill/strip and the label translations
(app.py lines 135-162). Conversation-side fields are optional: they are
NaN on sessions with no matching users row. -/
structure MergedRow where
  idSesion : String
  nombreAgente : String
  inicioSesion : ℤ
  fecha : ℤ
  cola : Option String
  conversacionesCerradas : ℚ
  conversacionConAgente : ℚ
  esperaAgente : ℚ
  cantidadRespuestas : ℚ
  transferenciasRealizadas : ℚ
  abandonadaPorUsuario : ℚ
  tiempoMedioRespuesta : Option ℚ
  tipificacionUser : Option String
  mensajesAgente : Option ℚ
  mensajesUsuario : Option ℚ
  mensajesBot : Option ℚ
deriving DecidableEq

/-- The users rows whose Id Sesión matches the given key. -/
def matchingUsers (us : List UserRow) (id : String) : List UserRow :=
  us.filter (fun u => u.idSesion == id)

/-- Merged row for a session with a matching users row. -/
def matchedRow (s : SessionRow) (u : UserRow) : MergedRow :=
  ⟨s.idSesion, s.nombreAgente, s.inicioSesion, s.fecha, s.cola,
   s.conversacionesCerradas, s.conversacionConAgente, s.esperaAgente,
   s.cantidadRespuestas, s.transferenciasRealizadas, s.abandonadaPorUsuario,
   s.tiempoMedioRespuesta, u.tipificacion, some u.mensajesAgente,
   some u.mensajesUsuario, some u.mensajesBot⟩

/-- Merged row for a session with no matching users row: the
conversation-side columns come out NaN. -/
def unmatchedRow (s : SessionRow) : MergedRow :=
  ⟨s.idSesion, s.nombreAgente, s.inicioSesion, s.fecha, s.cola,
   s.conversacionesCerradas, s.conversacionConAgente, s.esperaAgente,
   s.cantidadRespuestas, s.transferenciasRealizadas, s.abandonadaPorUsuario,
   s.tiempoMedioRespuesta, none, none, none, none⟩

/-- The block of merged rows one session row contributes: one output row
per matching users row, or a single all-NaN-conversation row when there
is no match. -/
def blockFor (us : List UserRow) (s : SessionRow) : List MergedRow :=
  if (matchingUsers us s.idSesion).isEmpty then [unmatchedRow s]
  else (matchingUsers us s.idSesion).map (matchedRow s)

/-- pd.merge(sessions, users[cols], on="Id Sesión", how="left"): each
session row fans out into its block, in session order (app.py 136-142). -/
def mergeLeft (ss : List SessionRow) (us : List UserRow) : List MergedRow :=
  match ss with
  | [] => []
  | s :: rest => blockFor us s ++ mergeLeft rest us

/-- Queue translation table (app.py lines 147-151); unmapped values pass
through unchanged. -/
def queue_translations (s : String) : String :=
  if s = "_default_" then "Default Queue"
  else if s = "default" then "Default Queue"
  else if s = "atencionAlCliente" then "Atención al cliente"
  else s

/-- Typification translation table (app.py lines 152-158); unmapped
values pass through unchanged. -/
def typification_translations (s : String) : String :=
  if s = "abandoned-by-user" then "Sin respuesta del cliente"
  else if s = "finished" then "Finalizado"
  else if s = "order-placed" then "Venta finalizada"
  else if s = "inactividad-agente" then "Sin respuesta asesor"
  else if s = "order-booked" then "Reserva Realizada"
  else s

/-- Whitespace stripping of a label, the .str.strip() of pandas: drop
whitespace characters from both ends of the string. -/
def strTrim (s : String) : String :=
  ⟨((s.data.dropWhile Char.isWhitespace).reverse.dropWhile
      Char.isWhitespace).reverse⟩

/-- df_merged["Cola"] = df_merged["Cola"].fillna("Sin Cola").str.strip()
on one row (app.py line 143). -/
def fillColaRow (m : MergedRow) : MergedRow :=
  { m with cola := some (strTrim (m.cola.getD "Sin Cola")) }

/-- The .replace translation passes applied to Cola and Tipificación_user
on one row (app.py lines 161-162); missing values stay missing. -/
def translateRow (m : MergedRow) : MergedRow :=
  { m with cola := m.cola.map queue_translations,
           tipificacionUser := m.tipificacionUser.map typification_translations }

/-- The full clean_and_prepare_data pipeline on the two raw tables:
per-column cleaning, start-timestamp dropna, the left merge, the Cola
fill and the label translations (app.py lines 102-164). -/
def clean_and_prepare_data (rs : List RawSessionRow) (us : List RawUserRow) :
    List MergedRow :=
  ((mergeLeft (cleanSessions rs) (cleanUsers us)).map fillColaRow).map translateRow

/-- KPI numerator feed: df_filtrado["Conversaciones cerradas"].sum()
(app.py line 278). -/
def total_conversations (df : List MergedRow) : ℚ :=
  (df.map MergedRow.conversacionesCerradas).sum

/-- df_filtrado["Abandonada por usuario"].sum() (app.py line 279). -/
def total_abandons (df : List MergedRow) : ℚ :=
  (df.map MergedRow.abandonadaPorUsuario).sum

/-- abandon_rate = (total_abandons / total_conversations * 100) if
total_conversations > 0 else 0 (app.py line 280). -/
def abandon_rate (df : List MergedRow) : ℚ :=
  if 0 < total_conversations df then
    total_abandons df / total_conversations df * 100
  else 0

/-- The non-missing values of the Tiempo medio de respuesta column of the
filtered table; pandas .mean() averages exactly these. -/
def response_values (df : List MergedRow) : List ℚ :=
  df.filterMap MergedRow.tiempoMedioRespuesta

/-- df_filtrado["Tiempo medio de respuesta"].mean(): the mean of the
non-NaN values, NaN (missing) when there are none (app.py line 285). -/
def avg_response_time_seconds (df : List MergedRow) : Option ℚ :=
  if (response_values df).length = 0 then none
  else some ((response_values df).sum / ((response_values df).length : ℚ))

/-- avg_response_time_hours = avg_response_time_seconds / 3600 if
pd.notna(avg_response_time_seconds) else 0 (app.py line 286). -/
def avg_response_time_hours (df : List MergedRow) : ℚ :=
  match avg_response_time_seconds df with
  | some m => m / 3600
  | none => 0

/-- The rendered mean-response-time KPI: the metric shows the hours value
when avg_response_time_hours > 0 and the "N/A" state otherwise, modelled
as none (app.py line 313). -/
def response_time_kpi (df : List MergedRow) : Option ℚ :=
  if 0 < avg_response_time_hours df then some (avg_response_time_hours df)
  else none

/-- The dashboard filter: rows whose agent is in the selected agent list,
whose queue is in the selected queue list, and whose Fecha lies in the
selected inclusive date range (app.py lines 263-268). -/
def df_filtrado (df : List MergedRow) (agents : List String)
    (colas : List (Option String)) (d0 d1 : ℤ) : List MergedRow :=
  df.filter (fun r =>
    agents.contains r.nombreAgente && colas.contains r.cola &&
    decide (d0 ≤ r.fecha) && decide (r.fecha ≤ d1))

/-- Sum of Conversaciones cerradas over the rows of one
(Fecha, Nombre Agente) group. -/
def sumClosedAt (df : List MergedRow) (k : ℤ × String) : ℚ :=
  ((df.filter (fun r => (r.fecha, r.nombreAgente) == k)).map
    MergedRow.conversacionesCerradas).sum

/-- daily_volume = df_filtrado.groupby(["Fecha", "Nombre Agente"]).agg(
total_conversations=("Conversaciones cerradas", "sum")) (app.py 321-325):
one output row per distinct (Fecha, Nombre Agente) pair, carrying the
group sum of closed conversations. -/
def daily_volume (df : List MergedRow) : List ((ℤ × String) × ℚ) :=
  ((df.map (fun r => (r.fecha, r.nombreAgente))).dedup).map
    (fun k => (k, sumClosedAt df k))

/-- Modelled from the spec: the daily rollup the spec describes, namely
the count of distinct session ids among the rows of a given start date.
The source computes daily_volume instead; this definition exists only to
be compared with it. -/
def distinct_sessions_by_start_date (df : List MergedRow) (d : ℤ) : ℕ :=
  (((df.filter (fun r => r.fecha == d)).map MergedRow.idSesion).dedup).length

/-- Required columns of the sessions file (app.py lines 76-81). -/
def required_cols_sessions : List String :=
  ["Id Sesión", "Nombre Agente", "Fecha/tiempo Inicio Sesión", "Cola",
   "Conversaciones cerradas", "Conversación con agente", "Espera agente",
   "Cantidad de respuestas", "Transferencias realizadas",
   "Abandonada por usuario", "Tiempo medio de respuesta"]

/-- Required columns of the users file (app.py line 82). -/
def required_cols_users : List String :=
  ["Id Sesión", "Tipificación", "Mensajes Agente"]

/-- check_missing_cols (app.py lines 85-93): collect the required columns
absent from the table and pass only when none is missing. -/
def check_missing_cols (cols required : List String) : Bool :=
  (required.filter (fun c => !(cols.contains c))).isEmpty

/-- validate_dataframes (app.py lines 74-98) on the column sets of the
two tables: the conjunction of the per-file checks. -/
def validate_dataframes (sessionCols userCols : List String) : Bool :=
  check_missing_cols sessionCols required_cols_sessions &&
  check_missing_cols userCols required_cols_users

/-- cols_to_merge, the users-side projection taken inside
clean_and_prepare_data (app.py line 135). -/
def cols_to_merge : List String :=
  ["Id Sesión", "Tipificación", "Mensajes Agente", "Mensajes Usuario",
   "Mensajes Bot"]

/-- The column selection _df_users[cols_to_merge] (app.py line 138): in
pandas this raises KeyError when any requested column is absent, modelled
as none. -/
def selectUserColumns (userCols : List String) : Option (List String) :=
  if cols_to_merge.all (fun c => userCols.contains c) then some cols_to_merge
  else none

/-- Column names of the table returned by load_sessions_data (app.py
lines 51-61): pd.read_csv keeps header names exactly as they appear in
the file and the function applies no renaming or trimming to them. -/
def load_sessions_columns (cols : List String) : List String := cols

/-- Modelled from the spec: the header normalization the spec attributes
to the sessions parser — trim each column name, then rename a
"close timestamp" column to the canonical session-end name when the
canonical name is absent. The source has no such step; this definition
exists only to be compared with load_sessions_columns. -/
def spec_load_sessions_columns (cols : List String) : List String :=
  let trimmed := cols.map (fun c => strTrim c)
  if trimmed.contains "close timestamp" &&
     !(trimmed.contains "Fecha/tiempo Fin Sesión") then
    trimmed.map (fun c =>
      if c = "close timestamp" then "Fecha/tiempo Fin Sesión" else c)
  else trimmed

/-- Projection of a merged row back onto its session-side columns. -/
def sessionFieldsOf (m : MergedRow) : SessionRow :=
  ⟨m.idSesion, m.nombreAgente, m.inicioSesion, m.fecha, m.cola,
   m.conversacionesCerradas, m.conversacionConAgente, m.esperaAgente,
   m.cantidadRespuestas, m.transferenciasRealizadas, m.abandonadaPorUsuario,
   m.tiempoMedioRespuesta⟩

/-- The six count/duration session columns cleaned with the fillna(0)
rule, as a list, for one raw row. -/
def rawCountFieldsOf (r : RawSessionRow) : List RawCell :=
  [r.conversacionesCerradas, r.conversacionConAgente, r.esperaAgente,
   r.cantidadRespuestas, r.transferenciasRealizadas, r.abandonadaPorUsuario]

/-- The six count/duration columns of one cleaned session row. -/
def countFieldsOf (s : SessionRow) : List ℚ :=
  [s.conversacionesCerradas, s.conversacionConAgente, s.esperaAgente,
   s.cantidadRespuestas, s.transferenciasRealizadas,
   s.abandonadaPorUsuario]

/-- A raw cell that does not hold a negative number. -/
def nonnegCell (c : RawCell) : Bool :=
  match c with
  | RawCell.num q => decide (0 ≤ q)
  | _ => true

/-- Example merged row with the given closed-conversation and abandon
counts, used to evaluate the aggregations on concrete inputs. -/
def exMergedRow (closed abandon : ℚ) : MergedRow :=
  ⟨"s1", "A", 0, 0, some "Q", closed, 0, 0, 0, 0, abandon,
   none, none, none, none, none⟩

/-- Example raw session row with the given closed-conversation count and
a parseable start timestamp. -/
def exRawSessionRow (v : ℚ) : RawSessionRow :=
  ⟨"s1", "A", RawTimestamp.ts 0, some "Q", RawCell.num v, RawCell.num 0,
   RawCell.num 0, RawCell.num 0, RawCell.num 0, RawCell.num 0,
   RawCell.dash⟩

/-- Example raw session row whose start timestamp fails to parse. -/
def exRawSessionRowBad : RawSessionRow :=
  ⟨"s2", "B", RawTimestamp.bad, some "Q", RawCell.num 1, RawCell.num 0,
   RawCell.num 0, RawCell.num 0, RawCell.num 0, RawCell.num 0,
   RawCell.dash⟩

/-- Example cleaned session row, used to evaluate the merge on concrete
inputs. -/
def exSessionRow : SessionRow :=
  ⟨"s1", "A", 0, 0, some "Q", 1, 0, 0, 0, 0, 0, none⟩

/-- Example cleaned users row matching exSessionRow's session id. -/
def exUserRow : UserRow :=
  ⟨"s1", some "finished", 5, 2, 1⟩

-- Helper lemmas ------------------------------------------------------

theorem blockFor_length (us : List UserRow) (s : SessionRow) :
    (blockFor us s).length = max 1 (matchingUsers us s.idSesion).length := by
  unfold blockFor
  by_cases h : (matchingUsers us s.idSesion).isEmpty
  · rw [if_pos h]
    rw [List.isEmpty_iff] at h
    simp [h]
  · rw [if_neg h]
    rw [List.isEmpty_iff, ← ne_eq, ← List.length_pos] at h
    simp only [List.length_map]
    omega

theorem mergeLeft_length (ss : List SessionRow) (us : List UserRow) :
    (mergeLeft ss us).length =
      (ss.map (fun s => max 1 (matchingUsers us s.idSesion).length)).sum := by
  induction ss with
  | nil => rfl
  | cons s rest ih =>
      simp [mergeLeft, List.length_append, blockFor_length, ih]

theorem length_le_mergeLeft (ss : List SessionRow) (us : List UserRow) :
    ss.length ≤ (mergeLeft ss us).length := by
  rw [mergeLeft_length]
  induction ss with
  | nil => simp
  | cons s rest ih =>
      simp only [List.map_cons, List.sum_cons, List.length_cons]
      omega

theorem mergeLeft_length_eq_iff (ss : List SessionRow) (us : List UserRow) :
    (mergeLeft ss us).length = ss.length ↔
      ∀ s ∈ ss, (matchingUsers us s.idSesion).length ≤ 1 := by
  induction ss with
  | nil => simp [mergeLeft]
  | cons s rest ih =>
      have hrest := length_le_mergeLeft rest us
      have hcons : (mergeLeft (s :: rest) us).length =
          (blockFor us s).length + (mergeLeft rest us).length := by
        simp [mergeLeft, List.length_append]
      rw [hcons, blockFor_length]
      constructor
      · intro h
        have hblock : max 1 (matchingUsers us s.idSesion).length = 1 := by
          simp only [List.length_cons] at h
          omega
        have hlen : (mergeLeft rest us).length = rest.length := by
          simp only [List.length_cons] at h
          omega
        intro x hx
        rcases List.mem_cons.mp hx with rfl | hmem
        · omega
        · exact (ih.mp hlen) x hmem
      · intro h
        have h1 : (matchingUsers us s.idSesion).length ≤ 1 :=
          h s (List.mem_cons_self s rest)
        have h2 : (mergeLeft rest us).length = rest.length :=
          ih.mpr (fun x hx => h x (List.mem_cons_of_mem s hx))
        simp only [List.length_cons]
        omega

theorem mem_blockFor_session (us : List UserRow) (s : SessionRow)
    (m : MergedRow) (hm : m ∈ blockFor us s) : sessionFieldsOf m = s := by
  unfold blockFor at hm
  by_cases h : (matchingUsers us s.idSesion).isEmpty
  · rw [if_pos h] at hm
    rcases List.mem_singleton.mp hm with rfl
    rfl
  · rw [if_neg h] at hm
    rcases List.mem_map.mp hm with ⟨u, _, rfl⟩
    rfl

theorem exists_mem_blockFor (us : List UserRow) (s : SessionRow) :
    ∃ m ∈ blockFor us s, sessionFieldsOf m = s ∧
      (matchingUsers us s.idSesion = [] →
        m.tipificacionUser = none ∧ m.mensajesAgente = none ∧
        m.mensajesUsuario = none ∧ m.mensajesBot = none) := by
  cases hms : matchingUsers us s.idSesion with
  | nil =>
      refine ⟨unmatchedRow s, ?_, rfl, fun _ => ⟨rfl, rfl, rfl, rfl⟩⟩
      unfold blockFor
      rw [hms]
      simp
  | cons u ms =>
      refine ⟨matchedRow s u, ?_, rfl, fun habs => ?_⟩
      · unfold blockFor
        rw [hms]
        simp only [List.isEmpty_cons, if_false, Bool.false_eq_true]
        exact List.mem_map.mpr ⟨u, List.mem_cons_self u ms, rfl⟩
      · exact (List.cons_ne_nil u ms (hms ▸ habs)).elim

theorem mem_mergeLeft_of (ss : List SessionRow) (us : List UserRow) :
    ∀ s ∈ ss, ∃ m ∈ mergeLeft ss us, sessionFieldsOf m = s ∧
      (matchingUsers us s.idSesion = [] →
        m.tipificacionUser = none ∧ m.mensajesAgente = none ∧
        m.mensajesUsuario = none ∧ m.mensajesBot = none) := by
  induction ss with
  | nil => intro s hs; cases hs
  | cons s' rest ih =>
      intro s hs
      rcases List.mem_cons.mp hs with rfl | hmem
      · rcases exists_mem_blockFor us s with ⟨m, hm, hprops⟩
        exact ⟨m, by simp [mergeLeft, List.mem_append, hm], hprops⟩
      · rcases ih s hmem with ⟨m, hm, hprops⟩
        exact ⟨m, by simp [mergeLeft, List.mem_append, hm], hprops⟩

theorem mergeLeft_origin (ss : List SessionRow) (us : List UserRow)
    (m : MergedRow) (hm : m ∈ mergeLeft ss us) :
    ∃ s ∈ ss, m ∈ blockFor us s := by
  induction ss with
  | nil => cases hm
  | cons s rest ih =>
      rcases List.mem_append.mp hm with hb | hrest
      · exact ⟨s, List.mem_cons_self s rest, hb⟩
      · rcases ih hrest with ⟨s', hs', hb'⟩
        exact ⟨s', List.mem_cons_of_mem s hs', hb'⟩

theorem foldl_min_le (as : List ℤ) :
    ∀ a b : ℤ, (b = a ∨ b ∈ as) → as.foldl min a ≤ b := by
  induction as with
  | nil =>
      intro a b h
      rcases h with rfl | h
      · exact le_refl b
      · cases h
  | cons x xs ih =>
      intro a b h
      rw [List.foldl_cons]
      rcases h with rfl | hx
      · exact le_trans (ih (min b x) (min b x) (Or.inl rfl)) (min_le_left b x)
      · rcases List.mem_cons.mp hx with rfl | hmem
        · exact le_trans (ih (min a b) (min a b) (Or.inl rfl)) (min_le_right a b)
        · exact ih (min a x) b (Or.inr hmem)

theorem foldl_max_ge (as : List ℤ) :
    ∀ a b : ℤ, (b = a ∨ b ∈ as) → b ≤ as.foldl max a := by
  induction as with
  | nil =>
      intro a b h
      rcases h with rfl | h
      · exact le_refl b
      · cases h
  | cons x xs ih =>
      intro a b h
      rw [List.foldl_cons]
      rcases h with rfl | hx
      · exact le_trans (le_max_left b x) (ih (max b x) (max b x) (Or.inl rfl))
      · rcases List.mem_cons.mp hx with rfl | hmem
        · exact le_trans (le_max_right a b) (ih (max a b) (max a b) (Or.inl rfl))
        · exact ih (max a x) b (Or.inr hmem)

theorem min?_le_of_mem {l : List ℤ} {d b : ℤ}
    (h : l.min? = some d) (hb : b ∈ l) : d ≤ b := by
  cases l with
  | nil => cases h
  | cons x xs =>
      have hd : d = xs.foldl min x := (Option.some.inj h).symm
      subst hd
      rcases List.mem_cons.mp hb with rfl | h2
      · exact foldl_min_le xs b b (Or.inl rfl)
      · exact foldl_min_le xs x b (Or.inr h2)

theorem le_max?_of_mem {l : List ℤ} {d b : ℤ}
    (h : l.max? = some d) (hb : b ∈ l) : b ≤ d := by
  cases l with
  | nil => cases h
  | cons x xs =>
      have hd : d = xs.foldl max x := (Option.some.inj h).symm
      subst hd
      rcases List.mem_cons.mp hb with rfl | h2
      · exact foldl_max_ge xs b b (Or.inl rfl)
      · exact foldl_max_ge xs x b (Or.inr h2)

theorem sum_filter_or_disjoint {α : Type} (v : α → ℚ) (p q : α → Bool) :
    ∀ l : List α, (∀ x ∈ l, ¬(p x = true ∧ q x = true)) →
      ((l.filter (fun x => p x || q x)).map v).sum =
        ((l.filter p).map v).sum + ((l.filter q).map v).sum := by
  intro l
  induction l with
  | nil => intro _; simp
  | cons x xs ih =>
      intro h
      have hx := h x (List.mem_cons_self x xs)
      have hxs : ∀ y ∈ xs, ¬(p y = true ∧ q y = true) :=
        fun y hy => h y (List.mem_cons_of_mem x hy)
      cases hp : p x with
      | false =>
          cases hq : q x with
          | false => simpa [List.filter_cons, hp, hq] using ih hxs
          | true =>
              simp [List.filter_cons, hp, hq, ih hxs]
              ring
      | true =>
          cases hq : q x with
          | false =>
              simp [List.filter_cons, hp, hq, ih hxs]
              ring
          | true => exact absurd ⟨hp, hq⟩ hx

theorem sum_groups_merged (df : List MergedRow) :
    ∀ ks : List (ℤ × String), ks.Nodup →
      (ks.map (fun k => sumClosedAt df k)).sum =
        ((df.filter (fun x => decide ((x.fecha, x.nombreAgente) ∈ ks))).map
          MergedRow.conversacionesCerradas).sum := by
  intro ks
  induction ks with
  | nil => simp
  | cons k ks ih =>
      intro hnd
      have hk : k ∉ ks := (List.nodup_cons.mp hnd).1
      have hnd' : ks.Nodup := (List.nodup_cons.mp hnd).2
      rw [List.map_cons, List.sum_cons, ih hnd']
      have hsplit := sum_filter_or_disjoint MergedRow.conversacionesCerradas
        (fun x => (x.fecha, x.nombreAgente) == k)
        (fun x => decide ((x.fecha, x.nombreAgente) ∈ ks)) df ?hdisj
      case hdisj =>
        intro x _ hboth
        exact hk ((beq_iff_eq.mp hboth.1) ▸ of_decide_eq_true hboth.2)
      rw [show sumClosedAt df k =
          ((df.filter (fun x => (x.fecha, x.nombreAgente) == k)).map
            MergedRow.conversacionesCerradas).sum from rfl]
      rw [← hsplit]
      apply congrArg
      apply congrArg
      apply List.filter_congr
      intro x _
      by_cases hxk : (x.fecha, x.nombreAgente) = k <;>
        by_cases hxs : (x.fecha, x.nombreAgente) ∈ ks <;>
          simp [hxk, hxs]

theorem cleanCount_nonneg_of (c : RawCell) (h : nonnegCell c = true) :
    0 ≤ cleanCount c := by
  cases c with
  | num q => exact of_decide_eq_true h
  | dash => exact le_refl 0
  | blank => exact le_refl 0
  | invalid => exact le_refl 0

/-- C2: the claim fails on the code. With closed-conversation sum 1 and
abandon sum 2 the abandon-rate KPI is 200, outside [0, 100]; and with
closed sum 1 and abandon sum 0 the KPI is 0 although the total of closed
conversations is not 0, so the KPI is not 0 exactly when that total
is 0. -/
theorem C2_abandon_rate_counterexample :
    abandon_rate [exMergedRow 1 2] = 200 ∧
    ¬ abandon_rate [exMergedRow 1 2] ≤ 100 ∧
    abandon_rate [exMergedRow 1 0] = 0 ∧
    total_conversations [exMergedRow 1 0] ≠ 0 := by
  norm_num [abandon_rate, total_conversations, total_abandons, exMergedRow]

/-- C2 (amended): the abandon-rate KPI equals (sum of abandons / sum of
closed) * 100 when the closed sum is positive and 0 otherwise; it is 0
whenever the closed total is 0; and it lies in [0, 100] provided the
abandon total is non-negative and at most the closed total. -/
theorem C2_abandon_rate_amended (df : List MergedRow) :
    (0 < total_conversations df →
      abandon_rate df = total_abandons df / total_conversations df * 100) ∧
    (total_conversations df = 0 → abandon_rate df = 0) ∧
    (0 ≤ total_abandons df → total_abandons df ≤ total_conversations df →
      0 ≤ abandon_rate df ∧ abandon_rate df ≤ 100) := by
  refine ⟨fun h => by simp [abandon_rate, h], fun h => by simp [abandon_rate, h], ?_⟩
  intro h0 h1
  by_cases hpos : 0 < total_conversations df
  · have hdiv : total_abandons df / total_conversations df ≤ 1 :=
      (div_le_one hpos).mpr h1
    have hdiv0 : 0 ≤ total_abandons df / total_conversations df :=
      div_nonneg h0 hpos.le
    constructor
    · simp only [abandon_rate, if_pos hpos]
      nlinarith
    · simp only [abandon_rate, if_pos hpos]
      nlinarith
  · simp [abandon_rate, hpos]

/-- C2 witness: the amended bound evaluated on a concrete filtered set
with closed sum 4 and abandon sum 1. -/
theorem C2_abandon_rate_witness :
    0 ≤ abandon_rate [exMergedRow 4 1] ∧ abandon_rate [exMergedRow 4 1] ≤ 100 :=
  (C2_abandon_rate_amended [exMergedRow 4 1]).2.2
    (by norm_num [total_abandons, exMergedRow])
    (by norm_num [total_abandons, total_conversations, exMergedRow])

/-- C3: the code is wrong on this claim. A users table holding exactly
the validated required columns (Id Sesión, Tipificación, Mensajes
Agente) passes validate_dataframes, yet the projection
_df_users[cols_to_merge] inside clean_and_prepare_data demands Mensajes
Usuario and Mensajes Bot as well, so it raises an unhandled KeyError
(modelled as none). -/
theorem C3_validated_users_keyerror :
    validate_dataframes required_cols_sessions required_cols_users = true ∧
    selectUserColumns required_cols_users = none := by
  decide

/-- C5: the claim fails on the code. The cleaning rule passes negative
numeric inputs through, so a raw closed-conversation cell holding -3 is
still -3 after clean_and_prepare_data's column cleaning, which is not
non-negative. -/
theorem C5_clean_counts_counterexample :
    (cleanSessions [exRawSessionRow (-3)]).map
      SessionRow.conversacionesCerradas = [(-3 : ℚ)] ∧
    ((-3 : ℚ) < 0) := by
  decide

/-- C5 (amended): after cleaning, every value of the six count/duration
columns is the numeric cleanCount image of the raw cell, with the "-"
sentinel, blanks, and coercion failures all replaced by 0; the values
are non-negative provided no raw cell of those columns holds a negative
number (negative numeric inputs pass through unchanged). -/
theorem C5_clean_counts_amended (rs : List RawSessionRow)
    (h : ∀ r ∈ rs, ∀ c ∈ rawCountFieldsOf r, nonnegCell c = true) :
    (∀ s ∈ cleanSessions rs, ∃ r ∈ rs,
        countFieldsOf s = (rawCountFieldsOf r).map cleanCount) ∧
    (∀ s ∈ cleanSessions rs, ∀ v ∈ countFieldsOf s, 0 ≤ v) ∧
    cleanCount RawCell.dash = 0 ∧ cleanCount RawCell.invalid = 0 ∧
    cleanCount RawCell.blank = 0 := by
  have horig : ∀ s ∈ cleanSessions rs, ∃ r ∈ rs,
      countFieldsOf s = (rawCountFieldsOf r).map cleanCount := by
    intro s hs
    rcases List.mem_filterMap.mp hs with ⟨r, hr, hmap⟩
    rcases Option.map_eq_some'.mp hmap with ⟨t, _, hst⟩
    exact ⟨r, hr, by simp [← hst, cleanSessionRow, countFieldsOf, rawCountFieldsOf]⟩
  refine ⟨horig, ?_, rfl, rfl, rfl⟩
  intro s hs v hv
  rcases List.mem_filterMap.mp hs with ⟨r, hr, hmap⟩
  rcases Option.map_eq_some'.mp hmap with ⟨t, _, hst⟩
  have hv' : v ∈ (rawCountFieldsOf r).map cleanCount := by
    rcases horig s hs with ⟨r', hr', heq⟩
    have : s = cleanSessionRow r t := hst.symm
    subst this
    simp only [cleanSessionRow, countFieldsOf, rawCountFieldsOf,
      List.map_cons, List.map_nil] at hv ⊢
    exact hv
  rcases List.mem_map.mp hv' with ⟨c, hc, hvc⟩
  exact hvc ▸ cleanCount_nonneg_of c (h r hr c hc)

/-- C5 witness: the amended statement evaluated on a one-row table whose
raw count cells are all non-negative, at the cleaned row's
closed-conversation value. -/
theorem C5_clean_counts_witness :
    0 ≤ (cleanSessionRow (exRawSessionRow 2) 0).conversacionesCerradas :=
  (C5_clean_counts_amended [exRawSessionRow 2] (by decide)).2.1
    (cleanSessionRow (exRawSessionRow 2) 0) (by decide)
    (cleanSessionRow (exRawSessionRow 2) 0).conversacionesCerradas (by decide)

/-- C7: the claim fails on the code. validate_dataframes accepts a
sessions table holding exactly the eleven required columns, which do not
include any session-end timestamp column, so passing does not require
the session-end timestamp the claim lists. -/
theorem C7_validate_counterexample :
    validate_dataframes required_cols_sessions required_cols_users = true ∧
    ¬ "Fecha/tiempo Fin Sesión" ∈ required_cols_sessions := by
  decide

/-- C7 (amended): validate_dataframes passes for the sessions table iff
it contains the eleven required columns (session id, agent name,
session-start timestamp, queue, and the seven numeric columns — with no
session-end timestamp required), passes for the users table iff it
contains session id, typification and agent-message count, and the
overall result is the conjunction of the two. -/
theorem C7_validate_amended (scols ucols : List String) :
    validate_dataframes scols ucols = true ↔
      ((∀ c ∈ required_cols_sessions, c ∈ scols) ∧
       (∀ c ∈ required_cols_users, c ∈ ucols)) := by
  simp [validate_dataframes, check_missing_cols, List.isEmpty_iff,
    List.filter_eq_nil_iff, List.contains, List.elem_iff]

/-- C7 witness: a sessions table with exactly the eleven required
columns and a users table with exactly the three required columns pass
validation. -/
theorem C7_validate_witness :
    validate_dataframes required_cols_sessions required_cols_users = true :=
  (C7_validate_amended required_cols_sessions required_cols_users).mpr
    (by decide)

theorem map_strTrim_ne (c : String) (hne : strTrim c ≠ c) :
    ∀ cols : List String, c ∈ cols → cols ≠ cols.map (fun s => strTrim s) := by
  intro cols
  induction cols with
  | nil => intro hc; cases hc
  | cons x xs ih =>
      intro hc h
      rw [List.map_cons] at h
      have hinj := (List.cons.injEq _ _ _ _).mp h
      rcases List.mem_cons.mp hc with rfl | hmem
      · exact hne hinj.1.symm
      · exact ih hmem hinj.2

/-- C10: the claim fails on the code. load_sessions_data returns column
names exactly as parsed: a header named " close timestamp " is neither
trimmed nor renamed to the canonical session-end column, unlike the
normalization the spec describes. -/
theorem C10_load_columns_counterexample :
    load_sessions_columns [" close timestamp "] = [" close timestamp "] ∧
    spec_load_sessions_columns [" close timestamp "] =
      ["Fecha/tiempo Fin Sesión"] ∧
    load_sessions_columns [" close timestamp "] ≠
      spec_load_sessions_columns [" close timestamp "] := by
  refine ⟨rfl, by decide, by decide⟩

/-- C10 (amended): when parsing the sessions feed the column names are
passed through exactly as they appear in the file: no surrounding
whitespace is trimmed and no "close timestamp" column is renamed; in
particular, whenever some header carries surrounding whitespace the
returned header list differs from its trimmed form. -/
theorem C10_load_columns_amended (cols : List String) :
    load_sessions_columns cols = cols ∧
    ((∃ c ∈ cols, strTrim c ≠ c) →
      load_sessions_columns cols ≠ cols.map (fun c => strTrim c)) := by
  refine ⟨rfl, ?_⟩
  rintro ⟨c, hc, hne⟩ h
  exact map_strTrim_ne c hne cols hc h

/-- C10 witness: on the concrete header list with one untrimmed name the
returned columns differ from their trimmed form. -/
theorem C10_load_columns_witness :
    load_sessions_columns [" a "] ≠ [" a "].map (fun c => strTrim c) :=
  (C10_load_columns_amended [" a "]).2 ⟨" a ", by decide, by decide⟩

/-- C1: the merge is a true left join on Id Sesión. The merged table has
at least as many rows as the cleaned sessions table, with equality iff
every session id of the sessions table has at most one matching users
row, and every cleaned sessions row appears in at least one merged row,
where unmatched sessions carry null typification and message counts. -/
theorem C1_merge_left_join (ss : List SessionRow) (us : List UserRow) :
    ss.length ≤ (mergeLeft ss us).length ∧
    ((mergeLeft ss us).length = ss.length ↔
      ∀ s ∈ ss, (matchingUsers us s.idSesion).length ≤ 1) ∧
    ∀ s ∈ ss, ∃ m ∈ mergeLeft ss us, sessionFieldsOf m = s ∧
      (matchingUsers us s.idSesion = [] →
        m.tipificacionUser = none ∧ m.mensajesAgente = none ∧
        m.mensajesUsuario = none ∧ m.mensajesBot = none) :=
  ⟨length_le_mergeLeft ss us, mergeLeft_length_eq_iff ss us,
   mem_mergeLeft_of ss us⟩

/-- C1 witness: the left-join row-count bound evaluated on a concrete
one-session, one-user pair of tables. -/
theorem C1_merge_left_join_witness :
    ([exSessionRow] : List SessionRow).length ≤
      (mergeLeft [exSessionRow] [exUserRow]).length :=
  (C1_merge_left_join [exSessionRow] [exUserRow]).1

/-- C4: when the filtered Tiempo medio de respuesta column has no valid
numeric value the KPI is the N/A state (none), never 0; when valid
values exist the seconds average is their mean with missing values
excluded from the denominator, the hours KPI is that mean divided by
3600, the KPI is N/A when the mean is non-positive, and any value the
KPI does report is positive. -/
theorem C4_response_time_kpi (df : List MergedRow) :
    (response_values df = [] → response_time_kpi df = none) ∧
    (response_values df ≠ [] →
      avg_response_time_seconds df =
        some ((response_values df).sum / ((response_values df).length : ℚ))) ∧
    (∀ m, avg_response_time_seconds df = some m →
      avg_response_time_hours df = m / 3600 ∧
      (m ≤ 0 → response_time_kpi df = none)) ∧
    (∀ v, response_time_kpi df = some v → 0 < v) := by
  refine ⟨?_, ?_, ?_, ?_⟩
  · intro h
    simp [response_time_kpi, avg_response_time_hours,
      avg_response_time_seconds, h]
  · intro h
    have hl : (response_values df).length ≠ 0 := by
      simpa [List.length_eq_zero] using h
    simp [avg_response_time_seconds, hl]
  · intro m hm
    refine ⟨by simp [avg_response_time_hours, hm], fun hm0 => ?_⟩
    have hdiv : m / 3600 ≤ 0 :=
      div_nonpos_of_nonpos_of_nonneg hm0 (by norm_num)
    simp [response_time_kpi, avg_response_time_hours, hm, not_lt.mpr hdiv]
  · intro v hv
    unfold response_time_kpi at hv
    split at hv
    · cases hv
      assumption
    · cases hv

/-- C4 witness: on an empty filtered table the KPI is the N/A state. -/
theorem C4_response_time_kpi_witness : response_time_kpi [] = none :=
  (C4_response_time_kpi []).1 rfl

/-- C8: filtering the cleaned table with the full distinct agent list,
the full distinct queue list, and the inclusive range from the minimum
to the maximum observed Fecha returns the table unchanged, so in
particular with the same row count. -/
theorem C8_full_filter_identity (df : List MergedRow) (d0 d1 : ℤ)
    (h0 : (df.map MergedRow.fecha).min? = some d0)
    (h1 : (df.map MergedRow.fecha).max? = some d1) :
    df_filtrado df ((df.map MergedRow.nombreAgente).dedup)
      ((df.map MergedRow.cola).dedup) d0 d1 = df := by
  apply List.filter_eq_self.mpr
  intro r hr
  have hag : r.nombreAgente ∈ (df.map MergedRow.nombreAgente).dedup :=
    List.mem_dedup.mpr (List.mem_map_of_mem _ hr)
  have hco : r.cola ∈ (df.map MergedRow.cola).dedup :=
    List.mem_dedup.mpr (List.mem_map_of_mem _ hr)
  have hd0 : d0 ≤ r.fecha := min?_le_of_mem h0 (List.mem_map_of_mem _ hr)
  have hd1 : r.fecha ≤ d1 := le_max?_of_mem h1 (List.mem_map_of_mem _ hr)
  simp [List.contains, List.elem_iff, hag, hco, hd0, hd1]

/-- C8 witness: the full-filter identity evaluated on a concrete
one-row table whose observed date range is [0, 0]. -/
theorem C8_full_filter_witness :
    df_filtrado [exMergedRow 1 0]
      (([exMergedRow 1 0].map MergedRow.nombreAgente).dedup)
      (([exMergedRow 1 0].map MergedRow.cola).dedup) 0 0 =
      [exMergedRow 1 0] :=
  C8_full_filter_identity [exMergedRow 1 0] 0 0 rfl rfl

/-- C9: sessions rows whose start timestamp fails to parse are dropped:
cleaning a table of only such rows yields the empty table, and every row
of the filtered merged table — the input of every downstream KPI and
rollup — originates in a raw sessions row whose start timestamp parsed,
inheriting its session id, agent name and start date. -/
theorem C9_failed_start_rows_absent (rs : List RawSessionRow)
    (us : List RawUserRow) (agents : List String)
    (colas : List (Option String)) (d0 d1 : ℤ) :
    cleanSessions (rs.filter
      (fun r => (parseTimestamp r.inicioSesion).isNone)) = [] ∧
    ∀ m ∈ df_filtrado (clean_and_prepare_data rs us) agents colas d0 d1,
      ∃ r ∈ rs, ∃ t, parseTimestamp r.inicioSesion = some t ∧
        m.idSesion = r.idSesion ∧ m.nombreAgente = r.nombreAgente ∧
        m.fecha = dateOf t := by
  constructor
  · apply List.filterMap_eq_nil_iff.mpr
    intro r hr
    have hnone : parseTimestamp r.inicioSesion = none :=
      Option.isNone_iff_eq_none.mp (List.mem_filter.mp hr).2
    simp [hnone]
  · intro m hm
    have hm1 : m ∈ clean_and_prepare_data rs us := (List.mem_filter.mp hm).1
    unfold clean_and_prepare_data at hm1
    rcases List.mem_map.mp hm1 with ⟨m1, hm1', rfl⟩
    rcases List.mem_map.mp hm1' with ⟨m2, hm2, rfl⟩
    rcases mergeLeft_origin _ _ _ hm2 with ⟨s, hs, hblock⟩
    have hsf : sessionFieldsOf m2 = s := mem_blockFor_session _ _ _ hblock
    rcases List.mem_filterMap.mp hs with ⟨r, hr, hmapped⟩
    rcases Option.map_eq_some'.mp hmapped with ⟨t, ht, hst⟩
    have hid : m2.idSesion = s.idSesion := congrArg SessionRow.idSesion hsf
    have hag : m2.nombreAgente = s.nombreAgente :=
      congrArg SessionRow.nombreAgente hsf
    have hfe : m2.fecha = s.fecha := congrArg SessionRow.fecha hsf
    refine ⟨r, hr, t, ht, ?_, ?_, ?_⟩
    · show (translateRow (fillColaRow m2)).idSesion = r.idSesion
      rw [show (translateRow (fillColaRow m2)).idSesion = m2.idSesion from rfl,
        hid, ← hst]
      rfl
    · show (translateRow (fillColaRow m2)).nombreAgente = r.nombreAgente
      rw [show (translateRow (fillColaRow m2)).nombreAgente = m2.nombreAgente
          from rfl, hag, ← hst]
      rfl
    · show (translateRow (fillColaRow m2)).fecha = dateOf t
      rw [show (translateRow (fillColaRow m2)).fecha = m2.fecha from rfl,
        hfe, ← hst]
      rfl

/-- C9 witness: cleaning a one-row table whose start timestamp fails to
parse yields the empty table. -/
theorem C9_failed_start_rows_witness :
    cleanSessions ([exRawSessionRowBad].filter
      (fun r => (parseTimestamp r.inicioSesion).isNone)) = [] :=
  (C9_failed_start_rows_absent [exRawSessionRowBad] [] [] [] 0 0).1

/-- C6: the claim fails on the code. On a one-row table with 5 closed
conversations the daily rollup holds the value 5 for its (date, agent)
group, while the count of distinct session ids on that date is 1, so the
rollup is not the distinct-session-id count the claim describes. -/
theorem C6_daily_volume_counterexample :
    daily_volume [exMergedRow 5 0] = [((0, "A"), 5)] ∧
    distinct_sessions_by_start_date [exMergedRow 5 0] 0 = 1 ∧
    (5 : ℚ) ≠ (distinct_sessions_by_start_date [exMergedRow 5 0] 0 : ℚ) := by
  have h2 : distinct_sessions_by_start_date [exMergedRow 5 0] 0 = 1 := by
    norm_num [distinct_sessions_by_start_date, exMergedRow]
  refine ⟨?_, h2, ?_⟩
  · norm_num [daily_volume, sumClosedAt, exMergedRow]
  · rw [h2]
    norm_num

/-- C6 (amended): the daily rollup groups by the pair (start date, agent
name) and aggregates the sum of closed conversations, not a distinct
session-id count and with no end-date series: its keys are exactly the
distinct (Fecha, Nombre Agente) pairs, each value is the group's sum of
Conversaciones cerradas, and the values add up to the total of closed
conversations of the filtered table. -/
theorem C6_daily_volume_amended (df : List MergedRow) :
    ((daily_volume df).map Prod.fst).Nodup ∧
    (∀ p ∈ daily_volume df, p.2 = sumClosedAt df p.1) ∧
    ((daily_volume df).map Prod.snd).sum = total_conversations df := by
  refine ⟨?_, ?_, ?_⟩
  · unfold daily_volume
    rw [List.map_map]
    have hcomp : (Prod.fst ∘ fun k : ℤ × String => (k, sumClosedAt df k)) =
        id := rfl
    rw [hcomp, List.map_id]
    exact List.nodup_dedup _
  · intro p hp
    unfold daily_volume at hp
    rcases List.mem_map.mp hp with ⟨k, _, rfl⟩
    rfl
  · unfold daily_volume
    rw [List.map_map]
    have hcomp : (Prod.snd ∘ fun k : ℤ × String => (k, sumClosedAt df k)) =
        fun k => sumClosedAt df k := rfl
    rw [hcomp]
    rw [sum_groups_merged df _ (List.nodup_dedup _)]
    have hfull : df.filter (fun x => decide ((x.fecha, x.nombreAgente) ∈
        (df.map (fun r => (r.fecha, r.nombreAgente))).dedup)) = df :=
      List.filter_eq_self.mpr (fun r hr => decide_eq_true
        (List.mem_dedup.mpr (List.mem_map_of_mem _ hr)))
    rw [hfull]
    rfl

/-- C6 witness: on a concrete one-row table the rollup's values add up
to the table's total of closed conversations. -/
theorem C6_daily_volume_witness :
    ((daily_volume [exMergedRow 5 0]).map Prod.snd).sum =
      total_conversations [exMergedRow 5 0] :=
  (C6_daily_volume_amended [exMergedRow 5 0]).2.2

end Botmaker
